import Mathlib

/-!
Verification of the `babble` whisper-service repository: a shallow embedding
of `src/whisper-service/server.py` and `src/whisper-service/transcribe.py`.

The external `mlx_whisper` engine is opaque; each potential engine call is
parametrised by an `EngineOutcome` (the value the engine would return, or the
exception it would raise).  Side effects that the specification talks about
(number of engine calls, temp-file creation and deletion) are recorded
explicitly in the result records of each operation.  Wall-clock times
(`time.time()` floats) are abstracted as rationals passed in as parameters.
-/

namespace Babble

/-- Wall-clock instants, abstracting Python float times as rationals. -/
abbrev Time := ℚ

/-- Opaque engine segment records are passed through unchanged by the
wrapper, so their shape is kept abstract. -/
abbrev Segment := String

/-! ### Python string and path helpers (`pathlib` / `str` semantics) -/

/-- Characters Python `str.strip` and `int()` treat as whitespace. -/
def isPySpace (c : Char) : Bool :=
  c == ' ' || c == '\t' || c == '\n' || c == '\r' || c.toNat == 11 || c.toNat == 12

/-- Strip whitespace from both ends of a character list. -/
def stripWs (cs : List Char) : List Char :=
  ((cs.dropWhile isPySpace).reverse.dropWhile isPySpace).reverse

/-- Python `str.strip()`. -/
def pyStrip (s : String) : String := String.mk (stripWs s.toList)

/-- ASCII lowercase of one character (`str.lower` on ASCII filenames). -/
def asciiLowerChar (c : Char) : Char :=
  if 'A' ≤ c ∧ c ≤ 'Z' then Char.ofNat (c.toNat + 32) else c

/-- Python `str.lower()` (restricted to ASCII case mapping). -/
def lowerStr (s : String) : String := String.mk (s.toList.map asciiLowerChar)

/-- Split a character list at every slash (accumulator holds the current
component reversed). -/
def splitSlashAux : List Char → List Char → List (List Char)
  | [], acc => [acc.reverse]
  | '/' :: rest, acc => acc.reverse :: splitSlashAux rest []
  | c :: rest, acc => splitSlashAux rest (c :: acc)

/-- The path components `pathlib` keeps (empty and `"."` entries dropped). -/
def pathComponents (s : String) : List String :=
  ((splitSlashAux s.toList []).map String.mk).filter (fun c => c != "" && c != ".")

/-- `pathlib.PurePath.name`: the final path component, `""` when none. -/
def pathName (s : String) : String := (pathComponents s).getLast?.getD ""

/-- Index of the last `.` in a character list, scanning left to right. -/
def lastDotIdxAux : List Char → Nat → Option Nat → Option Nat
  | [], _, best => best
  | c :: rest, i, best => lastDotIdxAux rest (i + 1) (if c == '.' then some i else best)

/-- Index of the last `.` in a character list, if any. -/
def lastDotIdx (cs : List Char) : Option Nat := lastDotIdxAux cs 0 none

/-- `pathlib.PurePath.suffix`: the extension of the final component; `""`
unless the last dot is neither the first nor the last character of the name
(CPython: `0 < i < len(name) - 1`). -/
def pySuffix (path : String) : String :=
  let cs := (pathName path).toList
  match lastDotIdx cs with
  | none => ""
  | some i => if 0 < i && i + 1 < cs.length then String.mk (cs.drop i) else ""

/-- After the first digit of an integer literal: digits, with single
underscores allowed only between digits. -/
def intDigitsCore : List Char → Bool
  | [] => true
  | '_' :: c :: rest => c.isDigit && intDigitsCore rest
  | '_' :: [] => false
  | c :: rest => c.isDigit && intDigitsCore rest

/-- A nonempty digit string with single underscores between digits. -/
def pyIntDigits (cs : List Char) : Bool :=
  match cs with
  | [] => false
  | c :: rest => c.isDigit && intDigitsCore rest

/-- Numeric value of a digit string. -/
def digitsVal (cs : List Char) : Nat :=
  cs.foldl (fun a c => 10 * a + (c.toNat - 48)) 0

/-- Python `int(str)`: optional surrounding whitespace, an optional sign,
then decimal digits with single underscores between digits (ASCII digits;
`None` models the `ValueError`). -/
def pyParseInt (s : String) : Option Int :=
  match stripWs s.toList with
  | '+' :: rest =>
      if pyIntDigits rest then some (Int.ofNat (digitsVal (rest.filter (fun c => c != '_'))))
      else none
  | '-' :: rest =>
      if pyIntDigits rest then some (-(Int.ofNat (digitsVal (rest.filter (fun c => c != '_')))))
      else none
  | cs =>
      if pyIntDigits cs then some (Int.ofNat (digitsVal (cs.filter (fun c => c != '_'))))
      else none

/-- Python truthiness of `x or d` for optional strings: `None` and `""` are
falsy, any other string is kept. -/
def pyStrOr (x : Option String) (d : String) : String :=
  match x with
  | none => d
  | some s => if s = "" then d else s

/-- `Path.unlink(missing_ok=...)` acting on whether the file exists:
returns whether the file exists afterwards and the error surfaced, if any.
With `missing_ok = true` a missing file raises nothing. -/
def pathUnlink (missing_ok : Bool) (ex : Bool) : Bool × Option String :=
  if ex then (false, none)
  else if missing_ok then (false, none)
  else (false, some "FileNotFoundError")

/-! ### The opaque engine -/

/-- The raw dictionary an engine `transcribe` call returns; each key may be
absent (the wrapper reads them with `dict.get` fallbacks). -/
structure EngineRawResult where
  text : Option String
  segments : Option (List Segment)
  language : Option String

/-- Outcome of one potential engine call: a returned value, or a raised
exception carrying its string representation. -/
inductive EngineOutcome where
  | ok (res : EngineRawResult)
  | raise (msg : String)

/-- Outcomes for the two engine calls a request can make: the synthetic
load call inside `load_model`, and the real transcription call. -/
structure EngineOracle where
  loadOutcome : EngineOutcome
  transcribeOutcome : EngineOutcome

/-! ### The Model Lifecycle Wrapper (`transcribe.py`, class `Transcriber`) -/

/-- Mutable state of the `Transcriber` singleton: `model_name`,
`_model_loaded`, `_last_used` (`0` meaning never used). -/
structure TranscriberState where
  model_name : String
  model_loaded : Bool
  last_used : Time

/-- The dictionary `Transcriber.transcribe` builds on success. -/
structure TranscriptionResult where
  text : String
  segments : List Segment
  language : String
  processing_time : Time

/-- Python `round(x, 3)` (float rounding abstracted over the rationals). -/
def round3 (q : ℚ) : ℚ := (round (q * 1000) : ℚ) / 1000

/-- Result of `load_model` / `ensure_loaded`: the new wrapper state, normal
return or propagated exception, engine calls made, engine calls that
returned without raising, and whether the synthetic silent temp file was
created and still exists afterwards. -/
structure LoadOutcome where
  state : TranscriberState
  result : Except String Unit
  engineCalls : Nat
  successCalls : Nat
  tmpCreated : Bool
  tmpExists : Bool

/-- `Transcriber.load_model`: no-op if already loaded; otherwise write the
synthetic silent wav, call the engine once, set `_model_loaded` on success,
delete the temp file in a `finally` block (`missing_ok=True`), and only
then set `_last_used` — so on an engine exception the exception propagates
with the state unchanged. -/
def Transcriber.load_model (s : TranscriberState) (eng : EngineOutcome) (now : Time) :
    LoadOutcome :=
  if s.model_loaded then
    { state := s, result := .ok (), engineCalls := 0, successCalls := 0,
      tmpCreated := false, tmpExists := false }
  else
    match eng with
    | .ok _ =>
        { state := { s with model_loaded := true, last_used := now },
          result := .ok (), engineCalls := 1, successCalls := 1,
          tmpCreated := true, tmpExists := (pathUnlink true true).1 }
    | .raise msg =>
        { state := s, result := .error msg, engineCalls := 1, successCalls := 0,
          tmpCreated := true, tmpExists := (pathUnlink true true).1 }

/-- `Transcriber.ensure_loaded`: call `load_model` when not loaded, then set
`_last_used = time.time()`.  When `load_model` raises, the exception
propagates before that assignment, so `_last_used` is not updated.
`nowL` is the clock reading inside `load_model`, `now` the one in
`ensure_loaded` itself. -/
def Transcriber.ensure_loaded (s : TranscriberState) (eng : EngineOutcome)
    (nowL now : Time) : LoadOutcome :=
  if s.model_loaded then
    { state := { s with last_used := now }, result := .ok (),
      engineCalls := 0, successCalls := 0, tmpCreated := false, tmpExists := false }
  else
    let L := Transcriber.load_model s eng nowL
    match L.result with
    | .ok _ => { L with state := { L.state with last_used := now } }
    | .error _ => L

/-- Result of the wrapper's `transcribe`: new state, value or propagated
exception, and the recorded effects (the temp-file fields are those of the
synthetic load file, the only file this layer touches). -/
structure TrOutcome where
  state : TranscriberState
  result : Except String TranscriptionResult
  engineCalls : Nat
  successCalls : Nat
  tmpCreated : Bool
  tmpExists : Bool

/-- `Transcriber.transcribe`: `ensure_loaded`, then one real engine call,
then wrap the raw dictionary with `get` fallbacks, `strip` the text and
round the elapsed time.  Exceptions from either stage propagate uncaught.
`start` and `fin` are the clock readings around the engine call. -/
def Transcriber.transcribe (s : TranscriberState) (oracle : EngineOracle)
    (nowL nowE start fin : Time) (language : String) : TrOutcome :=
  let E := Transcriber.ensure_loaded s oracle.loadOutcome nowL nowE
  match E.result with
  | .error msg =>
      { state := E.state, result := .error msg, engineCalls := E.engineCalls,
        successCalls := E.successCalls, tmpCreated := E.tmpCreated, tmpExists := E.tmpExists }
  | .ok _ =>
      match oracle.transcribeOutcome with
      | .raise msg =>
          { state := E.state, result := .error msg, engineCalls := E.engineCalls + 1,
            successCalls := E.successCalls, tmpCreated := E.tmpCreated,
            tmpExists := E.tmpExists }
      | .ok raw =>
          { state := E.state,
            result := .ok
              { text := pyStrip (raw.text.getD ""),
                segments := raw.segments.getD [],
                language := raw.language.getD language,
                processing_time := round3 (fin - start) },
            engineCalls := E.engineCalls + 1, successCalls := E.successCalls + 1,
            tmpCreated := E.tmpCreated, tmpExists := E.tmpExists }

/-- `Transcriber.is_loaded`: pure read of the loaded flag. -/
def Transcriber.is_loaded (s : TranscriberState) : Bool := s.model_loaded

/-- `Transcriber.idle_seconds`: `0` if never used, else `now - _last_used`. -/
def Transcriber.idle_seconds (s : TranscriberState) (now : Time) : Time :=
  if s.last_used = 0 then 0 else now - s.last_used

/-- `Transcriber.unload`: reset the two local fields; the engine offers no
real unload primitive, so nothing else happens and nothing can fail. -/
def Transcriber.unload (s : TranscriberState) : TranscriberState :=
  { s with model_loaded := false, last_used := 0 }

/-! ### The HTTP surface (`server.py`) -/

/-- The configuration the server reads at startup
(`server.host`, `server.port`, `model.name`, `model.language`). -/
structure Config where
  host : String
  port : Int
  model_name : String
  model_language : String

/-- The startup port override: `os.getenv` result applied to the config.
`if port_override:` makes `None` and `""` skip the block entirely; inside
it, `int(...)` failures are swallowed by `except ValueError: pass`. -/
def applyPortOverride (env : Option String) (cfg : Config) : Config :=
  match env with
  | none => cfg
  | some v =>
      if v = "" then cfg
      else
        match pyParseInt v with
        | some n => { cfg with port := n }
        | none => cfg

/-- Extension allow-list of `/transcribe`. -/
def allowed_extensions : List String := [".wav", ".m4a", ".mp3", ".flac", ".ogg"]

/-- The 400 detail string, which lists the allowed set after the offending
extension (Python set display order abstracted as the list order). -/
def unsupportedDetail (ext : String) : String :=
  "Unsupported file type: " ++ ext ++ ". Allowed: " ++ toString allowed_extensions

/-- An HTTP response from the `/transcribe` handler: a JSON body on success
or an `HTTPException` with a status code and detail message. -/
inductive Response where
  | jsonOk (body : TranscriptionResult)
  | httpError (status : Nat) (detail : String)

/-- Everything observable about one `/transcribe` request: final wrapper
state, response, engine calls made and succeeded, whether the request's
temp file was created, whether it still exists afterwards, any error the
cleanup surfaced, and the language string passed to the wrapper. -/
structure HandlerResult where
  state : TranscriberState
  response : Response
  engineCalls : Nat
  successCalls : Nat
  tmpCreated : Bool
  tmpExists : Bool
  cleanupError : Option String
  langUsed : String

/-- The `/transcribe` handler: pick the language (`language or
config["model"]["language"]`), validate the lowercased filename suffix
against the allow-list (400 before any temp file or engine work), write the
upload to a temp file, call the wrapper inside `try/except/finally`
(success → JSON body; any exception → 500 with `str(e)`; the `finally`
always runs `unlink(missing_ok=True)`). -/
def transcribe_audio (cfg : Config) (s : TranscriberState) (oracle : EngineOracle)
    (filename : Option String) (language : Option String)
    (nowL nowE start fin : Time) : HandlerResult :=
  let lang := pyStrOr language cfg.model_language
  let file_ext := lowerStr (pySuffix (filename.getD ""))
  if file_ext ∈ allowed_extensions then
    let T := Transcriber.transcribe s oracle nowL nowE start fin lang
    let cleanup := pathUnlink true true
    match T.result with
    | .ok r =>
        { state := T.state, response := .jsonOk r, engineCalls := T.engineCalls,
          successCalls := T.successCalls, tmpCreated := true,
          tmpExists := cleanup.1, cleanupError := cleanup.2, langUsed := lang }
    | .error msg =>
        { state := T.state, response := .httpError 500 msg, engineCalls := T.engineCalls,
          successCalls := T.successCalls, tmpCreated := true,
          tmpExists := cleanup.1, cleanupError := cleanup.2, langUsed := lang }
  else
    { state := s, response := .httpError 400 (unsupportedDetail file_ext),
      engineCalls := 0, successCalls := 0, tmpCreated := false,
      tmpExists := false, cleanupError := none, langUsed := lang }

/-- Body of a `/warmup` response. -/
structure WarmupBody where
  status : String
  model : String

/-- Observable outcome of one `/warmup` request; an engine exception is not
caught here, so it propagates as the `error` case. -/
structure WarmupResult where
  state : TranscriberState
  response : Except String WarmupBody
  engineCalls : Nat
  successCalls : Nat

/-- The `/warmup` handler: fast path returning `already_loaded` when
`transcriber.is_loaded`; otherwise `load_model()` then `loaded`. -/
def warmup (cfg : Config) (s : TranscriberState) (eng : EngineOutcome) (now : Time) :
    WarmupResult :=
  if Transcriber.is_loaded s then
    { state := s, response := .ok { status := "already_loaded", model := cfg.model_name },
      engineCalls := 0, successCalls := 0 }
  else
    let L := Transcriber.load_model s eng now
    match L.result with
    | .ok _ =>
        { state := L.state, response := .ok { status := "loaded", model := cfg.model_name },
          engineCalls := L.engineCalls, successCalls := L.successCalls }
    | .error msg =>
        { state := L.state, response := .error msg,
          engineCalls := L.engineCalls, successCalls := L.successCalls }

/-- Body of a `/health` response. -/
structure HealthBody where
  status : String
  model : String
  model_loaded : Bool

/-- The `/health` handler: pure read of config and wrapper state. -/
def health_check (cfg : Config) (s : TranscriberState) : HealthBody :=
  { status := "ready", model := cfg.model_name, model_loaded := Transcriber.is_loaded s }

/-! ### Operation sequences over the wrapper, for the state invariant -/

/-- One call into the wrapper, with the engine outcomes and clock readings
it would observe. -/
inductive Op where
  | loadOp (eng : EngineOutcome) (now : Time)
  | ensureOp (eng : EngineOutcome) (nowL now : Time)
  | transcribeOp (oracle : EngineOracle) (nowL nowE start fin : Time) (language : String)
  | unloadOp

/-- Wrapper state paired with a ghost count of engine calls that returned
without raising. -/
abbrev GState := TranscriberState × Nat

/-- Run one wrapper operation, accumulating the successful-call count. -/
def runOp (g : GState) (op : Op) : GState :=
  match op with
  | .loadOp eng now =>
      let L := Transcriber.load_model g.1 eng now
      (L.state, g.2 + L.successCalls)
  | .ensureOp eng nowL now =>
      let L := Transcriber.ensure_loaded g.1 eng nowL now
      (L.state, g.2 + L.successCalls)
  | .transcribeOp oracle nowL nowE start fin lang =>
      let T := Transcriber.transcribe g.1 oracle nowL nowE start fin lang
      (T.state, g.2 + T.successCalls)
  | .unloadOp => (Transcriber.unload g.1, g.2)

/-- `Transcriber.__init__`: not loaded, `_last_used = 0`, no engine call yet. -/
def initGState (name : String) : GState := (⟨name, false, 0⟩, 0)

/-! ### Theorems -/

/-- C7: for every prior state, `unload()` resets `is_loaded` to `false` and
`idle_seconds` to `0`, and it touches only the local loaded flag and
timestamp (the model name is unchanged); being a total function, it never
fails. -/
theorem unload_resets (s : TranscriberState) (now : Time) :
    Transcriber.is_loaded (Transcriber.unload s) = false
    ∧ Transcriber.idle_seconds (Transcriber.unload s) now = 0
    ∧ (Transcriber.unload s).model_name = s.model_name := by
  refine ⟨rfl, ?_, rfl⟩
  simp [Transcriber.idle_seconds, Transcriber.unload]

/-- C8: a present port override that parses as an integer replaces the
configured port; a present but unparsable override is silently ignored and
the file's port is kept (and an absent variable changes nothing). -/
theorem port_override_policy (cfg : Config) (v : String) (n : Int) :
    (pyParseInt v = some n → applyPortOverride (some v) cfg = { cfg with port := n })
    ∧ (pyParseInt v = none → applyPortOverride (some v) cfg = cfg)
    ∧ applyPortOverride none cfg = cfg := by
  refine ⟨?_, ?_, rfl⟩
  · intro h
    by_cases hv : v = ""
    · subst hv
      rw [show pyParseInt "" = none from rfl] at h
      cases h
    · simp [applyPortOverride, hv, h]
  · intro h
    by_cases hv : v = ""
    · subst hv
      simp [applyPortOverride]
    · simp [applyPortOverride, hv, h]

/-- Witness for C8: `"8081"` overrides the port, `"abc"` is ignored. -/
theorem port_override_policy_witness :
    applyPortOverride (some "8081") ⟨"h", 9000, "m", "zh"⟩ = ⟨"h", 8081, "m", "zh"⟩
    ∧ applyPortOverride (some "abc") ⟨"h", 9000, "m", "zh"⟩ = ⟨"h", 9000, "m", "zh"⟩ :=
  ⟨(port_override_policy ⟨"h", 9000, "m", "zh"⟩ "8081" 8081).1 (by decide),
   (port_override_policy ⟨"h", 9000, "m", "zh"⟩ "abc" 0).2.1 (by decide)⟩

/-- C9: when the engine call inside `load_model` raises, the exception
propagates, the wrapper state is completely unchanged (`is_loaded` stays
false, `last_used` keeps its prior value), and the synthetic silent temp
file was created yet no longer exists. -/
theorem load_failure_atomic (s : TranscriberState) (msg : String) (now : Time)
    (h : s.model_loaded = false) :
    (Transcriber.load_model s (.raise msg) now).result = .error msg
    ∧ (Transcriber.load_model s (.raise msg) now).state = s
    ∧ (Transcriber.load_model s (.raise msg) now).tmpCreated = true
    ∧ (Transcriber.load_model s (.raise msg) now).tmpExists = false := by
  simp [Transcriber.load_model, h, pathUnlink]

/-- Witness for C9 at a concrete unloaded state and failing engine. -/
theorem load_failure_atomic_witness :
    (Transcriber.load_model ⟨"m", false, 3⟩ (.raise "boom") 9).result = .error "boom"
    ∧ (Transcriber.load_model ⟨"m", false, 3⟩ (.raise "boom") 9).state = ⟨"m", false, 3⟩
    ∧ (Transcriber.load_model ⟨"m", false, 3⟩ (.raise "boom") 9).tmpCreated = true
    ∧ (Transcriber.load_model ⟨"m", false, 3⟩ (.raise "boom") 9).tmpExists = false :=
  load_failure_atomic ⟨"m", false, 3⟩ "boom" 9 rfl

/-- C5 counterexample: starting unloaded with `_last_used = 5`, an
`ensure_loaded` invocation at time 99 whose underlying engine load raises
does NOT update `last_used` to the invocation time — the assignment after
`load_model()` is skipped when the exception propagates. -/
theorem ensure_loaded_last_used_counterexample :
    (Transcriber.ensure_loaded ⟨"m", false, 5⟩ (.raise "boom") 98 99).state.last_used ≠ 99 := by
  rw [show (Transcriber.ensure_loaded ⟨"m", false, 5⟩ (.raise "boom") 98 99).state.last_used
      = 5 from rfl]
  norm_num

/-- C5 (amended): an `ensure_loaded` invocation that returns normally
(model already loaded, or the load succeeded) sets `last_used` to the
invocation time; when the underlying load raises, the exception propagates
and `last_used` keeps its prior value.  Consequently, once the model is
loaded, a `transcribe` attempt stamps `last_used` with the attempt time
regardless of whether the real engine call succeeds or fails. -/
theorem ensure_loaded_last_used_amended (s : TranscriberState) (eng : EngineOutcome)
    (oracle : EngineOracle) (nowL nowE start fin : Time) (lang : String) :
    (∀ u, (Transcriber.ensure_loaded s eng nowL nowE).result = .ok u →
      (Transcriber.ensure_loaded s eng nowL nowE).state.last_used = nowE)
    ∧ (∀ msg, (Transcriber.ensure_loaded s eng nowL nowE).result = .error msg →
      (Transcriber.ensure_loaded s eng nowL nowE).state.last_used = s.last_used)
    ∧ (s.model_loaded = true →
      (Transcriber.transcribe s oracle nowL nowE start fin lang).state.last_used = nowE) := by
  refine ⟨?_, ?_, ?_⟩
  · intro u hu
    cases hl : s.model_loaded with
    | true => simp [Transcriber.ensure_loaded, hl]
    | false =>
        cases eng with
        | ok r => simp [Transcriber.ensure_loaded, Transcriber.load_model, hl]
        | raise m => simp [Transcriber.ensure_loaded, Transcriber.load_model, hl] at hu
  · intro msg hm
    cases hl : s.model_loaded with
    | true => simp [Transcriber.ensure_loaded, hl] at hm
    | false =>
        cases eng with
        | ok r => simp [Transcriber.ensure_loaded, Transcriber.load_model, hl] at hm
        | raise m => simp [Transcriber.ensure_loaded, Transcriber.load_model, hl]
  · intro hl
    cases ht : oracle.transcribeOutcome <;>
      simp [Transcriber.transcribe, Transcriber.ensure_loaded, hl, ht]

/-- Witness for the amended C5: an already-loaded state stamped at time 99. -/
theorem ensure_loaded_last_used_amended_witness :
    (Transcriber.ensure_loaded ⟨"m", true, 5⟩ (.raise "x") 7 99).state.last_used = 99 :=
  (ensure_loaded_last_used_amended ⟨"m", true, 5⟩ (.raise "x") ⟨.raise "x", .raise "x"⟩
      7 99 0 0 "zh").1 () rfl

/-- The handler's result depends on the language field only through
`language or config["model"]["language"]`. -/
theorem transcribe_audio_language_eq (cfg : Config) (s : TranscriberState)
    (oracle : EngineOracle) (filename : Option String) (l1 l2 : Option String)
    (nowL nowE start fin : Time)
    (h : pyStrOr l1 cfg.model_language = pyStrOr l2 cfg.model_language) :
    transcribe_audio cfg s oracle filename l1 nowL nowE start fin
      = transcribe_audio cfg s oracle filename l2 nowL nowE start fin := by
  simp only [transcribe_audio, h]

/-- The language string handed to the wrapper is exactly
`language or config["model"]["language"]`. -/
theorem transcribe_audio_langUsed (cfg : Config) (s : TranscriberState)
    (oracle : EngineOracle) (filename : Option String) (language : Option String)
    (nowL nowE start fin : Time) :
    (transcribe_audio cfg s oracle filename language nowL nowE start fin).langUsed
      = pyStrOr language cfg.model_language := by
  simp only [transcribe_audio]
  split
  · split <;> rfl
  · rfl

/-- C10: an empty-string language form field behaves exactly like an absent
one — the handler result is identical, and the language passed to the
wrapper's transcribe call is the configured default when the field is
absent or empty and the field's own value when it is non-empty. -/
theorem empty_language_default (cfg : Config) (s : TranscriberState)
    (oracle : EngineOracle) (filename : Option String) (v : String)
    (nowL nowE start fin : Time) :
    transcribe_audio cfg s oracle filename none nowL nowE start fin
      = transcribe_audio cfg s oracle filename (some "") nowL nowE start fin
    ∧ (transcribe_audio cfg s oracle filename none nowL nowE start fin).langUsed
        = cfg.model_language
    ∧ (transcribe_audio cfg s oracle filename (some v) nowL nowE start fin).langUsed
        = if v = "" then cfg.model_language else v := by
  refine ⟨transcribe_audio_language_eq cfg s oracle filename none (some "")
      nowL nowE start fin rfl, ?_, ?_⟩
  · rw [transcribe_audio_langUsed]; rfl
  · rw [transcribe_audio_langUsed]
    by_cases hv : v = "" <;> simp [pyStrOr, hv]

/-- C1: when the lowercased filename suffix is not in the allow-list
(covering a missing filename and a missing suffix, both of which yield the
empty suffix), the handler answers with a 400 error whose detail lists the
allowed set, makes no engine call, creates no temp file, and leaves the
wrapper state untouched. -/
theorem ext_reject_no_engine_call (cfg : Config) (s : TranscriberState)
    (oracle : EngineOracle) (filename : Option String) (language : Option String)
    (nowL nowE start fin : Time)
    (h : lowerStr (pySuffix (filename.getD "")) ∉ allowed_extensions) :
    (transcribe_audio cfg s oracle filename language nowL nowE start fin).response
        = .httpError 400 (unsupportedDetail (lowerStr (pySuffix (filename.getD ""))))
    ∧ (transcribe_audio cfg s oracle filename language nowL nowE start fin).engineCalls = 0
    ∧ (transcribe_audio cfg s oracle filename language nowL nowE start fin).tmpCreated = false
    ∧ (transcribe_audio cfg s oracle filename language nowL nowE start fin).state = s := by
  simp [transcribe_audio, h]

/-- Witness for C1: the spec's own example, a file named `clip.txt`. -/
theorem ext_reject_no_engine_call_witness :
    (transcribe_audio ⟨"h", 9000, "m", "zh"⟩ ⟨"m", false, 0⟩ ⟨.raise "x", .raise "x"⟩
        (some "clip.txt") none 0 0 0 0).response = .httpError 400 (unsupportedDetail ".txt")
    ∧ (transcribe_audio ⟨"h", 9000, "m", "zh"⟩ ⟨"m", false, 0⟩ ⟨.raise "x", .raise "x"⟩
        (some "clip.txt") none 0 0 0 0).engineCalls = 0
    ∧ (transcribe_audio ⟨"h", 9000, "m", "zh"⟩ ⟨"m", false, 0⟩ ⟨.raise "x", .raise "x"⟩
        (some "clip.txt") none 0 0 0 0).tmpCreated = false
    ∧ (transcribe_audio ⟨"h", 9000, "m", "zh"⟩ ⟨"m", false, 0⟩ ⟨.raise "x", .raise "x"⟩
        (some "clip.txt") none 0 0 0 0).state = ⟨"m", false, 0⟩ :=
  ext_reject_no_engine_call ⟨"h", 9000, "m", "zh"⟩ ⟨"m", false, 0⟩ ⟨.raise "x", .raise "x"⟩
    (some "clip.txt") none 0 0 0 0 (by decide)

/-- C2: `/warmup` on a loaded model is the no-op fast path (`already_loaded`,
zero engine calls, state unchanged); on an unloaded model whose load
succeeds it makes exactly one engine call and answers `loaded`; hence two
sequential warm-ups from `UNLOADED` make exactly one engine call in total
and the second answers `already_loaded`. -/
theorem warmup_idempotent (cfg : Config) (s : TranscriberState) (eng eng2 : EngineOutcome)
    (now now2 : Time) (raw : EngineRawResult) :
    (s.model_loaded = true →
      warmup cfg s eng now
        = ⟨s, .ok ⟨"already_loaded", cfg.model_name⟩, 0, 0⟩)
    ∧ (s.model_loaded = false → eng = .ok raw →
      warmup cfg s eng now
        = ⟨{ s with model_loaded := true, last_used := now },
            .ok ⟨"loaded", cfg.model_name⟩, 1, 1⟩)
    ∧ (s.model_loaded = false → eng = .ok raw →
      (warmup cfg s eng now).engineCalls
          + (warmup cfg (warmup cfg s eng now).state eng2 now2).engineCalls = 1
      ∧ (warmup cfg (warmup cfg s eng now).state eng2 now2).response
          = .ok ⟨"already_loaded", cfg.model_name⟩) := by
  refine ⟨?_, ?_, ?_⟩
  · intro hl
    simp [warmup, Transcriber.is_loaded, hl]
  · intro hl he
    subst he
    simp [warmup, Transcriber.is_loaded, Transcriber.load_model, hl]
  · intro hl he
    subst he
    simp [warmup, Transcriber.is_loaded, Transcriber.load_model, hl]

/-- Witness for C2: two warm-ups from a fresh unloaded state. -/
theorem warmup_idempotent_witness :
    warmup ⟨"h", 9000, "m", "zh"⟩ ⟨"m", false, 0⟩ (.ok ⟨none, none, none⟩) 1
        = ⟨⟨"m", true, 1⟩, .ok ⟨"loaded", "m"⟩, 1, 1⟩
    ∧ ((warmup ⟨"h", 9000, "m", "zh"⟩ ⟨"m", false, 0⟩ (.ok ⟨none, none, none⟩) 1).engineCalls
          + (warmup ⟨"h", 9000, "m", "zh"⟩
              (warmup ⟨"h", 9000, "m", "zh"⟩ ⟨"m", false, 0⟩ (.ok ⟨none, none, none⟩) 1).state
              (.raise "x") 2).engineCalls = 1
      ∧ (warmup ⟨"h", 9000, "m", "zh"⟩
            (warmup ⟨"h", 9000, "m", "zh"⟩ ⟨"m", false, 0⟩ (.ok ⟨none, none, none⟩) 1).state
            (.raise "x") 2).response = .ok ⟨"already_loaded", "m"⟩) :=
  ⟨(warmup_idempotent ⟨"h", 9000, "m", "zh"⟩ ⟨"m", false, 0⟩ (.ok ⟨none, none, none⟩)
      (.raise "x") 1 2 ⟨none, none, none⟩).2.1 rfl rfl,
   (warmup_idempotent ⟨"h", 9000, "m", "zh"⟩ ⟨"m", false, 0⟩ (.ok ⟨none, none, none⟩)
      (.raise "x") 1 2 ⟨none, none, none⟩).2.2 rfl rfl⟩

/-- C3: for every request that passes extension validation — whatever the
engine does — the request's temp file is created, no longer exists when the
handler finishes, and the cleanup never surfaces an error; moreover the
`missing_ok` unlink is silent even on an already-missing file. -/
theorem transcribe_temp_cleanup (cfg : Config) (s : TranscriberState)
    (oracle : EngineOracle) (filename : Option String) (language : Option String)
    (nowL nowE start fin : Time)
    (h : lowerStr (pySuffix (filename.getD "")) ∈ allowed_extensions) :
    (transcribe_audio cfg s oracle filename language nowL nowE start fin).tmpCreated = true
    ∧ (transcribe_audio cfg s oracle filename language nowL nowE start fin).tmpExists = false
    ∧ (transcribe_audio cfg s oracle filename language nowL nowE start fin).cleanupError = none
    ∧ (∀ b, pathUnlink true b = (false, none)) := by
  refine ⟨?_, ?_, ?_, fun b => by cases b <;> rfl⟩ <;>
    · simp only [transcribe_audio, if_pos h]
      split <;> rfl

/-- Witness for C3: a `.WAV` upload (exercising the lowercasing) whose
engine transcription fails. -/
theorem transcribe_temp_cleanup_witness :
    (transcribe_audio ⟨"h", 9000, "m", "zh"⟩ ⟨"m", true, 0⟩
        ⟨.ok ⟨none, none, none⟩, .raise "zap"⟩ (some "b.WAV") none 0 0 0 0).tmpCreated = true
    ∧ (transcribe_audio ⟨"h", 9000, "m", "zh"⟩ ⟨"m", true, 0⟩
        ⟨.ok ⟨none, none, none⟩, .raise "zap"⟩ (some "b.WAV") none 0 0 0 0).tmpExists = false
    ∧ (transcribe_audio ⟨"h", 9000, "m", "zh"⟩ ⟨"m", true, 0⟩
        ⟨.ok ⟨none, none, none⟩, .raise "zap"⟩ (some "b.WAV") none 0 0 0 0).cleanupError = none
    ∧ (∀ b, pathUnlink true b = (false, none)) :=
  transcribe_temp_cleanup ⟨"h", 9000, "m", "zh"⟩ ⟨"m", true, 0⟩
    ⟨.ok ⟨none, none, none⟩, .raise "zap"⟩ (some "b.WAV") none 0 0 0 0 (by decide)

/-- C4: past validation, an exception raised by the wrapper's transcribe
call becomes a 500 error whose detail is exactly the exception's string
representation, and a successful call returns the `TranscriptionResult` as
the JSON body. -/
theorem transcribe_engine_error_mapping (cfg : Config) (s : TranscriberState)
    (oracle : EngineOracle) (filename : Option String) (language : Option String)
    (nowL nowE start fin : Time)
    (h : lowerStr (pySuffix (filename.getD "")) ∈ allowed_extensions) :
    (∀ msg,
      (Transcriber.transcribe s oracle nowL nowE start fin
          (pyStrOr language cfg.model_language)).result = .error msg →
      (transcribe_audio cfg s oracle filename language nowL nowE start fin).response
        = .httpError 500 msg)
    ∧ (∀ r,
      (Transcriber.transcribe s oracle nowL nowE start fin
          (pyStrOr language cfg.model_language)).result = .ok r →
      (transcribe_audio cfg s oracle filename language nowL nowE start fin).response
        = .jsonOk r) := by
  constructor
  · intro msg hm
    simp only [transcribe_audio, if_pos h, hm]
  · intro r hr
    simp only [transcribe_audio, if_pos h, hr]

/-- Witness for C4: a loaded model whose real engine call raises `"boom"`. -/
theorem transcribe_engine_error_mapping_witness :
    (transcribe_audio ⟨"h", 9000, "m", "zh"⟩ ⟨"m", true, 0⟩
        ⟨.ok ⟨none, none, none⟩, .raise "boom"⟩ (some "a.wav") none 0 0 0 0).response
      = .httpError 500 "boom" :=
  (transcribe_engine_error_mapping ⟨"h", 9000, "m", "zh"⟩ ⟨"m", true, 0⟩
      ⟨.ok ⟨none, none, none⟩, .raise "boom"⟩ (some "a.wav") none 0 0 0 0 (by decide)).1
    "boom" rfl

/-- One wrapper operation preserves the invariant that a set loaded flag is
backed by at least one successful engine call. -/
theorem runOp_preserves_inv (g : GState) (op : Op)
    (h : g.1.model_loaded = true → 1 ≤ g.2) :
    (runOp g op).1.model_loaded = true → 1 ≤ (runOp g op).2 := by
  obtain ⟨s, k⟩ := g
  cases op with
  | loadOp eng now =>
      cases hl : s.model_loaded <;> cases eng <;>
        simp_all [runOp, Transcriber.load_model]
  | ensureOp eng nowL now =>
      cases hl : s.model_loaded <;> cases eng <;>
        simp_all [runOp, Transcriber.ensure_loaded, Transcriber.load_model]
  | transcribeOp oracle nowL nowE start fin lang =>
      cases hl : s.model_loaded <;> rcases ho : oracle.loadOutcome with r | m <;>
          rcases ht : oracle.transcribeOutcome with r2 | m2 <;>
        simp_all [runOp, Transcriber.transcribe, Transcriber.ensure_loaded,
          Transcriber.load_model]
  | unloadOp => simp [runOp, Transcriber.unload]

/-- C6: along every sequence of wrapper operations started from
`Transcriber.__init__`, whenever the loaded flag is true the engine has
completed at least one call without raising — the flag is only ever set
after a successful engine call. -/
theorem loaded_implies_engine_success (name : String) (ops : List Op)
    (h : (List.foldl runOp (initGState name) ops).1.model_loaded = true) :
    1 ≤ (List.foldl runOp (initGState name) ops).2 := by
  suffices H : ∀ g : GState, (g.1.model_loaded = true → 1 ≤ g.2) →
      ((List.foldl runOp g ops).1.model_loaded = true
        → 1 ≤ (List.foldl runOp g ops).2) by
    refine H (initGState name) ?_ h
    intro hfalse
    simp [initGState] at hfalse
  clear h
  induction ops with
  | nil => intro g hg; simpa using hg
  | cons op rest ih =>
      intro g hg
      simp only [List.foldl_cons]
      exact ih (runOp g op) (runOp_preserves_inv g op hg)

/-- Witness for C6: one successful load from the initial state. -/
theorem loaded_implies_engine_success_witness :
    1 ≤ (List.foldl runOp (initGState "m") [Op.loadOp (.ok ⟨none, none, none⟩) 1]).2 :=
  loaded_implies_engine_success "m" [Op.loadOp (.ok ⟨none, none, none⟩) 1] (by decide)

end Babble
